import Mathlib

/-!
Verification of the session-context resolution and proxy-engine core of the
Juniper Mist orchestration service.

The development shallowly embeds:
- the external key-value Context Store wrapped by `src/services/redis.py`
  (keys are strings, values are strings, a key may be absent);
- the handshake endpoint `get_self` of
  `src/routers/day0_identity_and_topology/org.py`, which calls the upstream
  `/api/v1/self` endpoint, resolves an organization identifier from the
  privilege records of the identity payload, and commits `api_host` and
  (when resolved) `org_id` to the store;
- the site resource handlers of
  `src/routers/day0_design_and_topology/sites.py`, which read the context,
  fail fast with an HTTP 400 error when it is missing, and otherwise
  delegate to the proxy engine;
- the proxy engine error taxonomy (modelled from the spec, since
  `src/services/mist_engine.py` is not part of the sources).

Upstream I/O is represented by oracle parameters: each operation receives
the outcome the upstream call would produce, and the embedding records
which upstream calls were issued.  Python truthiness on optional strings
(None and the empty string are falsy) is made explicit by `truthy`.
-/

namespace Mist

/-- The external key-value store state: each string key maps to an optional
string value (`none` means the key is absent).  This is the semantics the
spec requires of the store behind `RedisClient` in `src/services/redis.py`. -/
def Store := String → Option String

/-- The store with every key absent. -/
def Store.empty : Store := fun _ => none

/-- `set(key, value)`: unconditional overwrite, last writer wins
(`RedisClient.set` with no expiry). -/
def Store.set (s : Store) (k v : String) : Store :=
  fun k2 => if k2 = k then some v else s k2

/-- `get(key)`: the current value, or absent (`RedisClient.get`). -/
def Store.get (s : Store) (k : String) : Option String := s k

/-- `delete(key)`: unconditional removal, idempotent (`RedisClient.delete`). -/
def Store.delete (s : Store) (k : String) : Store :=
  fun k2 => if k2 = k then none else s k2

/-- Python truthiness of an optional string: `None` and `""` are falsy,
any non-empty string is truthy. -/
def truthy : Option String → Bool
  | none => false
  | some s => !s.isEmpty

/-- A privilege record of the identity payload: a dictionary carrying an
optional `scope` field and an optional `org_id` field (absent fields model
`dict.get` returning `None`). -/
structure Privilege where
  scope : Option String
  org_id : Option String
deriving DecidableEq, Repr

/-- The identity payload returned by the upstream `/api/v1/self` call; only
its `privileges` sequence drives context resolution, and the whole payload
is returned to the caller unchanged. -/
structure SelfPayload where
  privileges : List Privilege
deriving DecidableEq, Repr

/-- `fnc.findlast(\x7b"scope": "org"\x7d, privileges)`: the last element of the
sequence whose `scope` field equals `"org"`, if any. -/
def findlast_org (ps : List Privilege) : Option Privilege :=
  ps.reverse.find? (fun p => p.scope == some "org")

/-- Errors raised by the proxy engine.  Modelled from the spec: the engine
itself (`src/services/mist_engine.py`) is not among the sources; sections
4.3 and 7 of the spec require a non-2xx upstream response to raise an
upstream-rejection error carrying the numeric status and decoded detail,
and a transport failure (DNS, TLS, connection refused, timeout) to raise a
distinct transport error. -/
inductive ProxyError where
  | upstreamRejected : Nat → String → ProxyError
  | transportFailure : String → ProxyError
deriving DecidableEq, Repr

/-- The observable outcome of one upstream HTTP exchange: either a response
with a numeric status and a body, or a transport failure before any
response is received. -/
inductive HttpOutcome where
  | response : Nat → String → HttpOutcome
  | transportFailure : String → HttpOutcome
deriving DecidableEq, Repr

/-- Modelled from the spec: the proxy engine call of
`src/services/mist_engine.py` (absent from the sources).  Section 4.3: on a
2xx status the decoded body is returned; on any other status an
upstream-rejection error carrying the numeric status and the decoded detail
is raised; on transport failure a transport error is raised.  The outcome
parameter stands for what the wire produced for this method and path. -/
def proxy (method path : String) (outcome : HttpOutcome) :
    Except ProxyError String :=
  match method, path, outcome with
  | _, _, .transportFailure msg => .error (.transportFailure msg)
  | _, _, .response status body =>
    if 200 ≤ status ∧ status < 300 then .ok body
    else .error (.upstreamRejected status body)

/-- The request model of the handshake endpoint (`SelfRequest` in
`src/routers/day0_identity_and_topology/org.py`): an API host defaulting to
the regional endpoint, and an optional organization identifier override. -/
structure SelfRequest where
  api_host : String := "api.ac2.mist.com"
  org_id : Option String := none
deriving DecidableEq, Repr

/-- Shallow embedding of the handshake endpoint `get_self` of
`src/routers/day0_identity_and_topology/org.py`.  The `upstream` parameter
is the outcome of `engine.get_self()`: an exception there propagates before
any store write.  On success, the organization identifier is the override
when truthy, otherwise the `org_id` field of the last org-scoped privilege;
`api_host` is always committed, `org_id` only when truthy.  The raw payload
is returned unchanged. -/
def get_self (request : SelfRequest) (upstream : Except ProxyError SelfPayload)
    (store : Store) : Except ProxyError SelfPayload × Store :=
  match upstream with
  | .error e => (.error e, store)
  | .ok result =>
    let org_id :=
      if truthy request.org_id then
        request.org_id
      else
        match findlast_org result.privileges with
        | some org_priv => org_priv.org_id
        | none => request.org_id
    let store1 := store.set "api_host" request.api_host
    let store2 :=
      if truthy org_id then store1.set "org_id" (org_id.getD "") else store1
    (.ok result, store2)

/-- An error surfaced by a resource handler: either an HTTP error raised by
the handler itself (`HTTPException(status_code, detail)` — the context-missing
case uses status 400, a client-input error) or a propagated proxy-engine
failure. -/
inductive OpError where
  | http : Nat → String → OpError
  | proxyErr : ProxyError → OpError
deriving DecidableEq, Repr

/-- One upstream call issued by a handler through the engine: its HTTP
method, the host the engine was built with, and the request path. -/
structure UpstreamCall where
  method : String
  host : String
  path : String
deriving DecidableEq, Repr

/-- A site object as decoded from an upstream JSON body: every field is
optional, mirroring `dict.get` on the decoded dictionary.  The `latlng`
field is an uninspected sub-dictionary passed through verbatim; it is
modelled by its serialized form. -/
structure SiteJson where
  id : Option String := none
  name : Option String := none
  address : Option String := none
  timezone : Option String := none
  country_code : Option String := none
  latlng : Option String := none
  notes : Option String := none
  org_id : Option String := none
deriving DecidableEq, Repr

/-- The `Site` response model of `sites.py`: `id` and `name` are required
strings, the rest optional. -/
structure Site where
  id : String
  name : String
  address : Option String := none
  timezone : Option String := none
  country_code : Option String := none
  latlng : Option String := none
  notes : Option String := none
  org_id : Option String := none
deriving DecidableEq, Repr

/-- The `SiteListResponse` model of `sites.py`. -/
structure SiteListResponse where
  sites : List Site
  count : Nat
deriving DecidableEq, Repr

/-- The `SiteCreate` request model of `sites.py`. -/
structure SiteCreate where
  name : String
  address : Option String := none
  timezone : String := "America/Chicago"
  country_code : String := "US"
  latlng : Option String := none
  notes : Option String := none
deriving DecidableEq, Repr

/-- The `SiteUpdate` request model of `sites.py`: every field optional. -/
structure SiteUpdate where
  name : Option String := none
  address : Option String := none
  timezone : Option String := none
  country_code : Option String := none
  latlng : Option String := none
  notes : Option String := none
deriving DecidableEq, Repr

/-- The outcome of one resource handler invocation: its result or error,
the list of upstream calls it issued, and the store state it leaves
behind. -/
structure OpResult (α : Type) where
  result : Except OpError α
  calls : List UpstreamCall
  store : Store

/-- The detail string of the context error raised by handlers that need
both context fields. -/
def missingBothDetail : String :=
  "Missing api_host or org_id. Call POST /org/self first."

/-- The detail string of the context error raised by handlers that need
only the host. -/
def missingHostDetail : String :=
  "Missing api_host. Call POST /org/self first."

/-- Field-by-field construction of a `Site` from a decoded dictionary, as
the handlers of `sites.py` perform it: `s.get("id", "")`,
`s.get("name", "")`, and plain `s.get` for the optional fields. -/
def siteOfJson (s : SiteJson) : Site :=
  { id := s.id.getD ""
    name := s.name.getD ""
    address := s.address
    timezone := s.timezone
    country_code := s.country_code
    latlng := s.latlng
    notes := s.notes
    org_id := s.org_id }

/-- Shallow embedding of `list_sites` in `sites.py`: reads both context
fields, raises HTTP 400 when either is missing (Python truthiness), issues
`GET /api/v1/orgs/\x7borg_id\x7d/sites`, optionally filters by name, and
packages the result. -/
def list_sites (site_name : Option String) (st : Store)
    (upstream : UpstreamCall → Except ProxyError (List SiteJson)) :
    OpResult SiteListResponse :=
  let api_host := st.get "api_host"
  let org_id := st.get "org_id"
  if !truthy api_host || !truthy org_id then
    ⟨.error (.http 400 missingBothDetail), [], st⟩
  else
    let call : UpstreamCall :=
      ⟨"GET", api_host.getD "", "/api/v1/orgs/" ++ org_id.getD "" ++ "/sites"⟩
    match upstream call with
    | .error e => ⟨.error (.proxyErr e), [call], st⟩
    | .ok data =>
      let data :=
        if truthy site_name then
          data.filter (fun s => s.name == site_name)
        else data
      let sites := data.map siteOfJson
      ⟨.ok ⟨sites, sites.length⟩, [call], st⟩

/-- Shallow embedding of `create_site` in `sites.py`: reads both context
fields, raises HTTP 400 when either is missing, issues
`POST /api/v1/orgs/\x7borg_id\x7d/sites` with the request payload, and builds
the response with `request.name` as the fallback name. -/
def create_site (request : SiteCreate) (st : Store)
    (upstream : UpstreamCall → SiteCreate → Except ProxyError SiteJson) :
    OpResult Site :=
  let api_host := st.get "api_host"
  let org_id := st.get "org_id"
  if !truthy api_host || !truthy org_id then
    ⟨.error (.http 400 missingBothDetail), [], st⟩
  else
    let call : UpstreamCall :=
      ⟨"POST", api_host.getD "", "/api/v1/orgs/" ++ org_id.getD "" ++ "/sites"⟩
    match upstream call request with
    | .error e => ⟨.error (.proxyErr e), [call], st⟩
    | .ok result =>
      ⟨.ok { siteOfJson result with name := result.name.getD request.name },
        [call], st⟩

/-- Shallow embedding of `get_site` in `sites.py`: reads only `api_host`,
raises HTTP 400 when it is missing, issues `GET /api/v1/sites/\x7bsite_id\x7d`,
and builds the response with `site_id` as the fallback id. -/
def get_site (site_id : String) (st : Store)
    (upstream : UpstreamCall → Except ProxyError SiteJson) :
    OpResult Site :=
  let api_host := st.get "api_host"
  if !truthy api_host then
    ⟨.error (.http 400 missingHostDetail), [], st⟩
  else
    let call : UpstreamCall :=
      ⟨"GET", api_host.getD "", "/api/v1/sites/" ++ site_id⟩
    match upstream call with
    | .error e => ⟨.error (.proxyErr e), [call], st⟩
    | .ok result =>
      ⟨.ok { siteOfJson result with id := result.id.getD site_id }, [call], st⟩

/-- Shallow embedding of `update_site` in `sites.py`: reads only
`api_host`, raises HTTP 400 when it is missing, issues
`PUT /api/v1/sites/\x7bsite_id\x7d` with the update payload, and builds the
response with `site_id` as the fallback id. -/
def update_site (site_id : String) (request : SiteUpdate) (st : Store)
    (upstream : UpstreamCall → SiteUpdate → Except ProxyError SiteJson) :
    OpResult Site :=
  let api_host := st.get "api_host"
  if !truthy api_host then
    ⟨.error (.http 400 missingHostDetail), [], st⟩
  else
    let call : UpstreamCall :=
      ⟨"PUT", api_host.getD "", "/api/v1/sites/" ++ site_id⟩
    match upstream call request with
    | .error e => ⟨.error (.proxyErr e), [call], st⟩
    | .ok result =>
      ⟨.ok { siteOfJson result with id := result.id.getD site_id }, [call], st⟩

/-- Shallow embedding of `delete_site` in `sites.py`: reads only
`api_host`, raises HTTP 400 when it is missing, issues
`DELETE /api/v1/sites/\x7bsite_id\x7d`, and returns the id with a deleted
status. -/
def delete_site (site_id : String) (st : Store)
    (upstream : UpstreamCall → Except ProxyError Unit) :
    OpResult (String × String) :=
  let api_host := st.get "api_host"
  if !truthy api_host then
    ⟨.error (.http 400 missingHostDetail), [], st⟩
  else
    let call : UpstreamCall :=
      ⟨"DELETE", api_host.getD "", "/api/v1/sites/" ++ site_id⟩
    match upstream call with
    | .error e => ⟨.error (.proxyErr e), [call], st⟩
    | .ok _ => ⟨.ok (site_id, "deleted"), [call], st⟩

/-- A mutating operation on the Context Store. -/
inductive StoreOp where
  | setOp : String → String → StoreOp
  | delOp : String → StoreOp
deriving DecidableEq, Repr

/-- Apply one store operation. -/
def applyOp (s : Store) : StoreOp → Store
  | .setOp k v => s.set k v
  | .delOp k => s.delete k

/-- Run a sequence of store operations in order. -/
def runOps (s : Store) (ops : List StoreOp) : Store :=
  ops.foldl applyOp s

/-- One step of scanning a sequence for the effect on key `k`: a set of `k`
records `some (some v)`, a delete of `k` records `some none`, and an
operation on another key keeps the accumulator. -/
def stepEffect (k : String) (acc : Option (Option String)) (op : StoreOp) :
    Option (Option String) :=
  match op with
  | .setOp k2 v => if k2 = k then some (some v) else acc
  | .delOp k2 => if k2 = k then some none else acc

/-- The effect of the last operation in the sequence touching key `k`:
`some (some v)` when it was a set of `v`, `some none` when it was a delete,
and `none` when no operation touched `k`. -/
def lastEffect (ops : List StoreOp) (k : String) : Option (Option String) :=
  ops.foldl (stepEffect k) none

/-! ### Helper lemmas -/

theorem Store.get_set_self (s : Store) (k v : String) :
    (s.set k v).get k = some v := by
  simp [Store.set, Store.get]

theorem Store.get_set_of_ne (s : Store) (k v k2 : String) (h : k2 ≠ k) :
    (s.set k v).get k2 = s.get k2 := by
  simp [Store.set, Store.get, h]

theorem truthy_none_eq_false : truthy none = false := rfl

theorem truthy_some_empty : truthy (some "") = false := by decide

theorem truthy_some_of_ne (s : String) (h : s ≠ "") : truthy (some s) = true := by
  simp [truthy, Bool.eq_false_iff, String.isEmpty_iff, h]

/-- Scanning with an arbitrary accumulator: the accumulator only survives
when no operation of the sequence touches the key. -/
theorem foldl_stepEffect (k : String) (ops : List StoreOp)
    (acc : Option (Option String)) :
    ops.foldl (stepEffect k) acc =
      match ops.foldl (stepEffect k) none with
      | some r => some r
      | none => acc := by
  induction ops generalizing acc with
  | nil => rfl
  | cons op rest ih =>
    simp only [List.foldl_cons]
    rw [ih (stepEffect k acc op), ih (stepEffect k none op)]
    cases hE : rest.foldl (stepEffect k) none with
    | some r => rfl
    | none =>
      cases op with
      | setOp k2 v =>
        by_cases h : k2 = k <;> simp [stepEffect, h]
      | delOp k2 =>
        by_cases h : k2 = k <;> simp [stepEffect, h]

/-- Running a sequence of operations, a read of `k` returns the value of
the last operation touching `k`, or the initial value when none did. -/
theorem runOps_get (s : Store) (ops : List StoreOp) (k : String) :
    (runOps s ops).get k =
      match lastEffect ops k with
      | some r => r
      | none => s.get k := by
  induction ops generalizing s with
  | nil => rfl
  | cons op rest ih =>
    simp only [runOps, lastEffect, List.foldl_cons] at *
    rw [ih (applyOp s op), foldl_stepEffect k rest (stepEffect k none op)]
    cases hE : rest.foldl (stepEffect k) none with
    | some r => rfl
    | none =>
      cases op with
      | setOp k2 v =>
        by_cases h : k2 = k <;>
          simp [stepEffect, applyOp, Store.set, Store.get, h, Ne.symm]
      | delOp k2 =>
        by_cases h : k2 = k <;>
          simp [stepEffect, applyOp, Store.delete, Store.get, h, Ne.symm]

/-- Deleting a key twice equals deleting it once. -/
theorem delete_idem (s : Store) (k : String) :
    (s.delete k).delete k = s.delete k := by
  funext k2
  by_cases h : k2 = k <;> simp [Store.delete, h]

/-! ### Claim theorems -/

/-- C1: for every handshake call with no caller-supplied organization
identifier, the committed org_id is the org_id of the last entry of the
privilege sequence whose scope is the organization-scope marker (the entry
carrying a non-empty org_id, as the spec requires for a resolved value). -/
theorem C1_handshake_last_org_scoped_commit
    (host : String) (payload : SelfPayload) (st : Store)
    (p : Privilege) (s : String)
    (hfind : findlast_org payload.privileges = some p)
    (horg : p.org_id = some s) (hne : s ≠ "") :
    ((get_self ⟨host, none⟩ (.ok payload) st).2).get "org_id" = some s := by
  unfold get_self
  simp [truthy_none_eq_false, hfind, horg, truthy_some_of_ne s hne,
    Store.set, Store.get]

/-- Witness for C1: the privilege sequence
[(org, A), (site, B), (org, C)] with no override resolves org_id = C. -/
theorem C1_witness :
    ((get_self ⟨"api.mist.com", none⟩
        (.ok ⟨[⟨some "org", some "A"⟩, ⟨some "site", some "B"⟩,
               ⟨some "org", some "C"⟩]⟩)
        Store.empty).2).get "org_id" = some "C" :=
  C1_handshake_last_org_scoped_commit "api.mist.com"
    ⟨[⟨some "org", some "A"⟩, ⟨some "site", some "B"⟩, ⟨some "org", some "C"⟩]⟩
    Store.empty ⟨some "org", some "C"⟩ "C" (by decide) rfl (by decide)

/-- C2 counterexample: the empty string is a string value, yet a handshake
with the explicit override "" and privilege sequence [(org, A)] scans the
privileges and commits "A" — not the supplied "". -/
theorem C2_counterexample :
    ((get_self ⟨"h", some ""⟩ (.ok ⟨[⟨some "org", some "A"⟩]⟩)
        Store.empty).2).get "org_id" = some "A" ∧
      (some "A" : Option String) ≠ some "" :=
  ⟨by decide, by decide⟩

/-- C2 (amended): for every handshake call in which the caller supplies an
explicit non-empty organization identifier, exactly that value is
committed, regardless of the privilege sequence of the identity payload. -/
theorem C2_override_nonempty_committed
    (host o : String) (hne : o ≠ "") (payload : SelfPayload) (st : Store) :
    ((get_self ⟨host, some o⟩ (.ok payload) st).2).get "org_id" = some o := by
  unfold get_self
  simp [truthy_some_of_ne o hne, Store.set, Store.get]

/-- Witness for C2: override "X" with a privilege sequence carrying a
different org-scoped identifier still commits "X". -/
theorem C2_witness :
    ((get_self ⟨"h", some "X"⟩ (.ok ⟨[⟨some "org", some "Y"⟩]⟩)
        Store.empty).2).get "org_id" = some "X" :=
  C2_override_nonempty_committed "h" "X" (by decide)
    ⟨[⟨some "org", some "Y"⟩]⟩ Store.empty

/-- C3 counterexample: starting from a prior store holding org_id = "old",
a handshake with no override and no org-scoped privilege leaves the stale
value readable — the subsequent read yields some "old", not absent. -/
theorem C3_counterexample :
    ((get_self ⟨"h", none⟩ (.ok ⟨[⟨some "site", some "B"⟩]⟩)
        (Store.empty.set "org_id" "old")).2).get "org_id" = some "old" ∧
      (some "old" : Option String) ≠ none :=
  ⟨by decide, by decide⟩

/-- C3 (amended): a handshake with no override whose privilege sequence
contains no organization-scoped entry does not write org_id — the
subsequent read returns whatever the prior state held for it, absent when
the prior state held nothing — while still committing api_host equal to
the requested host. -/
theorem C3_no_org_scope_keeps_prior_org_id
    (host : String) (payload : SelfPayload) (st : Store)
    (hfind : findlast_org payload.privileges = none) :
    ((get_self ⟨host, none⟩ (.ok payload) st).2).get "org_id"
        = st.get "org_id" ∧
      ((get_self ⟨host, none⟩ (.ok payload) st).2).get "api_host"
        = some host := by
  unfold get_self
  simp [truthy_none_eq_false, hfind, Store.set, Store.get]

/-- Witness for C3 (amended): a site-only privilege sequence over an empty
prior store leaves org_id absent and commits the host. -/
theorem C3_witness :
    ((get_self ⟨"h", none⟩ (.ok ⟨[⟨some "site", some "B"⟩]⟩)
        Store.empty).2).get "org_id" = Store.empty.get "org_id" ∧
      ((get_self ⟨"h", none⟩ (.ok ⟨[⟨some "site", some "B"⟩]⟩)
        Store.empty).2).get "api_host" = some "h" :=
  C3_no_org_scope_keeps_prior_org_id "h" ⟨[⟨some "site", some "B"⟩]⟩
    Store.empty (by decide)

/-- C4: when the upstream self call fails before a response is received,
the handshake propagates the error and the store is left completely
unmodified — neither api_host nor org_id is written. -/
theorem C4_upstream_failure_writes_nothing
    (request : SelfRequest) (e : ProxyError) (st : Store) :
    get_self request (.error e) st = (.error e, st) := rfl

/-- C9: with no override, when the last org-scoped privilege carries no
org_id or an empty one, the handshake completes without raising: the raw
payload is returned unchanged, api_host is committed, and org_id is not
written. -/
theorem C9_empty_org_id_no_raise
    (host : String) (payload : SelfPayload) (st : Store) (p : Privilege)
    (hfind : findlast_org payload.privileges = some p)
    (horg : p.org_id = none ∨ p.org_id = some "") :
    (get_self ⟨host, none⟩ (.ok payload) st).1 = .ok payload ∧
      ((get_self ⟨host, none⟩ (.ok payload) st).2).get "api_host"
        = some host ∧
      ((get_self ⟨host, none⟩ (.ok payload) st).2).get "org_id"
        = st.get "org_id" := by
  unfold get_self
  rcases horg with h | h <;>
    simp [truthy_none_eq_false, truthy_some_empty, hfind, h,
      Store.set, Store.get]

/-- Witness for C9: an org-scoped privilege with no org_id field. -/
theorem C9_witness :
    (get_self ⟨"h", none⟩ (.ok ⟨[⟨some "org", none⟩]⟩) Store.empty).1
        = .ok ⟨[⟨some "org", none⟩]⟩ ∧
      ((get_self ⟨"h", none⟩ (.ok ⟨[⟨some "org", none⟩]⟩)
        Store.empty).2).get "api_host" = some "h" ∧
      ((get_self ⟨"h", none⟩ (.ok ⟨[⟨some "org", none⟩]⟩)
        Store.empty).2).get "org_id" = Store.empty.get "org_id" :=
  C9_empty_org_id_no_raise "h" ⟨[⟨some "org", none⟩]⟩ Store.empty
    ⟨some "org", none⟩ (by decide) (Or.inl rfl)

/-- C10: a successful handshake writes at most the keys api_host and
org_id; every other key of the external store holds the same value after
the handshake as before it. -/
theorem C10_handshake_frame
    (request : SelfRequest) (payload : SelfPayload) (st : Store) (k : String)
    (h1 : k ≠ "api_host") (h2 : k ≠ "org_id") :
    ((get_self request (.ok payload) st).2).get k = st.get k := by
  unfold get_self
  dsimp only
  split
  · simp [Store.set, Store.get, h1, h2]
  · split <;> simp [Store.set, Store.get, h1, h2]

/-- Witness for C10: the nms_profile key survives a handshake that commits
both context fields. -/
theorem C10_witness :
    ((get_self ⟨"h", some "O"⟩ (.ok ⟨[]⟩)
        (Store.empty.set "nms_profile" "P")).2).get "nms_profile"
      = (Store.empty.set "nms_profile" "P").get "nms_profile" :=
  C10_handshake_frame ⟨"h", some "O"⟩ ⟨[]⟩
    (Store.empty.set "nms_profile" "P") "nms_profile" (by decide) (by decide)

/-- C5: every site resource operation invoked while the store holds no
truthy api_host fails with the HTTP 400 context-missing error — a
client-input status — and issues zero upstream calls; no default context
is substituted. -/
theorem C5_missing_api_host_context_missing
    (st : Store) (hmiss : truthy (st.get "api_host") = false)
    (n : Option String)
    (u1 : UpstreamCall → Except ProxyError (List SiteJson))
    (req : SiteCreate)
    (u2 : UpstreamCall → SiteCreate → Except ProxyError SiteJson)
    (i : String) (u3 : UpstreamCall → Except ProxyError SiteJson)
    (requ : SiteUpdate)
    (u4 : UpstreamCall → SiteUpdate → Except ProxyError SiteJson)
    (u5 : UpstreamCall → Except ProxyError Unit) :
    (list_sites n st u1).result = .error (.http 400 missingBothDetail) ∧
    (list_sites n st u1).calls = [] ∧
    (create_site req st u2).result = .error (.http 400 missingBothDetail) ∧
    (create_site req st u2).calls = [] ∧
    (get_site i st u3).result = .error (.http 400 missingHostDetail) ∧
    (get_site i st u3).calls = [] ∧
    (update_site i requ st u4).result = .error (.http 400 missingHostDetail) ∧
    (update_site i requ st u4).calls = [] ∧
    (delete_site i st u5).result = .error (.http 400 missingHostDetail) ∧
    (delete_site i st u5).calls = [] := by
  unfold list_sites create_site get_site update_site delete_site
  simp [hmiss]

/-- Witness for C5 over the empty store with concrete inert oracles. -/
theorem C5_witness :
    (list_sites none Store.empty (fun _ => .ok [])).result
        = .error (.http 400 missingBothDetail) ∧
    (list_sites none Store.empty (fun _ => .ok [])).calls = [] ∧
    (create_site { name := "S" } Store.empty
        (fun _ _ => .ok {})).result = .error (.http 400 missingBothDetail) ∧
    (create_site { name := "S" } Store.empty (fun _ _ => .ok {})).calls = [] ∧
    (get_site "sid" Store.empty (fun _ => .ok {})).result
        = .error (.http 400 missingHostDetail) ∧
    (get_site "sid" Store.empty (fun _ => .ok {})).calls = [] ∧
    (update_site "sid" {} Store.empty (fun _ _ => .ok {})).result
        = .error (.http 400 missingHostDetail) ∧
    (update_site "sid" {} Store.empty (fun _ _ => .ok {})).calls = [] ∧
    (delete_site "sid" Store.empty (fun _ => .ok ())).result
        = .error (.http 400 missingHostDetail) ∧
    (delete_site "sid" Store.empty (fun _ => .ok ())).calls = [] :=
  C5_missing_api_host_context_missing Store.empty rfl none (fun _ => .ok [])
    { name := "S" } (fun _ _ => .ok {}) "sid" (fun _ => .ok {}) {}
    (fun _ _ => .ok {}) (fun _ => .ok ())

/-- C6: over any sequence of set/delete operations on the Context Store,
a get of key k returns the value of the last operation touching k — the
set value, or absent after a delete — and the initial value when no
operation touched k; moreover delete is idempotent. -/
theorem C6_store_last_write_wins
    (s : Store) (ops : List StoreOp) (k : String) :
    ((runOps s ops).get k =
      match lastEffect ops k with
      | some r => r
      | none => s.get k) ∧
    (s.delete k).delete k = s.delete k :=
  ⟨runOps_get s ops k, delete_idem s k⟩

/-- C7: no site resource operation ever writes to the Context Store —
whatever the prior store, the oracle outcomes, and the inputs, the store
each operation leaves behind equals the store it started from. -/
theorem C7_resource_ops_do_not_write_store
    (st : Store) (n : Option String)
    (u1 : UpstreamCall → Except ProxyError (List SiteJson))
    (req : SiteCreate)
    (u2 : UpstreamCall → SiteCreate → Except ProxyError SiteJson)
    (i : String) (u3 : UpstreamCall → Except ProxyError SiteJson)
    (requ : SiteUpdate)
    (u4 : UpstreamCall → SiteUpdate → Except ProxyError SiteJson)
    (u5 : UpstreamCall → Except ProxyError Unit) :
    (list_sites n st u1).store = st ∧
    (create_site req st u2).store = st ∧
    (get_site i st u3).store = st ∧
    (update_site i requ st u4).store = st ∧
    (delete_site i st u5).store = st := by
  unfold list_sites create_site get_site update_site delete_site
  refine ⟨?_, ?_, ?_, ?_, ?_⟩ <;>
    · dsimp only
      split
      · rfl
      · split <;> rfl

/-- C8: a proxy call whose upstream response carries a 4xx or 5xx status
raises the upstream-rejection error with that numeric status, an error
kind distinct from the transport-failure error. -/
theorem C8_non_2xx_upstream_rejected
    (method path body : String) (status : Nat) (h4 : 400 ≤ status) :
    proxy method path (.response status body)
        = .error (.upstreamRejected status body) ∧
      ∀ msg, ProxyError.upstreamRejected status body
        ≠ ProxyError.transportFailure msg := by
  constructor
  · simp only [proxy]
    rw [if_neg (by omega)]
  · exact fun msg hc => ProxyError.noConfusion hc

/-- Witness for C8: a 404 response to GET /x. -/
theorem C8_witness :
    proxy "GET" "/x" (.response 404 "not found")
        = .error (.upstreamRejected 404 "not found") ∧
      ∀ msg, ProxyError.upstreamRejected 404 "not found"
        ≠ ProxyError.transportFailure msg :=
  C8_non_2xx_upstream_rejected "GET" "/x" "not found" 404 (by decide)

end Mist
